import Mathlib

/-!
Verification development for `generate_test_inputs.py`
(`src/zk_integration/phase1_step1/circuits/scripts/generate_test_inputs.py`).

The script reads a JSON test-vector document, and for each entry of its
`test_cases` array writes `input_case{N}.json` and `expected_case{N}.json`
(N counted from 1), followed by a `test_summary.json` aggregating all cases.

We embed the script shallowly: JSON values are an inductive type whose
numbers keep their lexical token (the script performs no arithmetic, only
pass-through, so the token is a faithful stand-in for the parsed number);
the run is a pure function from the state of the source file to the ordered
list of file writes plus an optional fatal error, mirroring Python's
exception flow (`FileNotFoundError`, `json.JSONDecodeError`, `KeyError`).
-/

set_option autoImplicit false

namespace TruthForge

/-- A JSON value as parsed by Python's `json.load`.  Objects are ordered
key/value lists (Python dicts preserve insertion order; on duplicate keys the
last occurrence wins, which `lookupDict` below reproduces).  A number is kept
as its serialized token. -/
inductive Json where
  | null
  | bool (b : Bool)
  | num (tok : String)
  | str (s : String)
  | arr (elems : List Json)
  | obj (fields : List (String × Json))

instance : Inhabited Json := ⟨.null⟩

/-- Dictionary lookup with Python's duplicate-key semantics (last wins). -/
def lookupDict : List (String × Json) → String → Option Json
  | [], _ => none
  | (k, v) :: rest, key =>
    match lookupDict rest key with
    | some v' => some v'
    | none => if k = key then some v else none

/-- The fatal conditions the script can raise.  `keyError k` models Python's
`KeyError: k` from a `dict[k]` access; `jsonDecodeError` models an unparseable
source document; `typeError` models indexing / iterating a JSON value of the
wrong shape.  (When `test_cases` is a JSON object or string Python would
iterate its keys or characters before failing on the string index; no such
document appears in any property we verify, and the model reports the failure
as `typeError` directly.) -/
inductive GenError where
  | missingSourceFile
  | jsonDecodeError
  | keyError (key : String)
  | typeError
  deriving DecidableEq

/-- `d[key]` on a parsed JSON value: a `KeyError` when the key is absent from
an object, a `TypeError` when the value is not an object. -/
def dictGet (j : Json) (key : String) : Except GenError Json :=
  match j with
  | .obj kvs =>
    match lookupDict kvs key with
    | some v => .ok v
    | none => .error (.keyError key)
  | _ => .error .typeError

/-- `d.get(key, default)` on a parsed JSON value. -/
def dictGetD (j : Json) (key : String) (dflt : Json) : Json :=
  match j with
  | .obj kvs =>
    match lookupDict kvs key with
    | some v => v
    | none => dflt
  | _ => dflt

/-- The five fields the script reads out of one `test_cases` entry. -/
structure CaseRec where
  name : Json
  uniform_input : Json
  expected_output : Json
  tolerance : Json
  notes : Json

instance : Inhabited CaseRec := ⟨⟨.null, .null, .null, .null, .null⟩⟩

/-- The five `test_case[...]` accesses at the top of the loop body, in source
order; the first missing field raises its `KeyError`. -/
def extractCase (tc : Json) : Except GenError CaseRec :=
  match dictGet tc "name" with
  | .error e => .error e
  | .ok name =>
    match dictGet tc "uniform_input" with
    | .error e => .error e
    | .ok ui =>
      match dictGet tc "expected_output" with
      | .error e => .error e
      | .ok eo =>
        match dictGet tc "tolerance" with
        | .error e => .error e
        | .ok tol =>
          match dictGet tc "notes" with
          | .error e => .error e
          | .ok notes => .ok ⟨name, ui, eo, tol, notes⟩

/-- The record a valid case extracts to (junk default otherwise). -/
def extractRec (tc : Json) : CaseRec :=
  match extractCase tc with
  | .ok c => c
  | .error _ => default

/-- Whether the five `test_case[...]` accesses all succeed. -/
def caseOk (tc : Json) : Bool :=
  match extractCase tc with
  | .ok _ => true
  | .error _ => false

def inputFileName (idx : Nat) : String :=
  "input_case" ++ toString idx ++ ".json"

def expectedFileName (idx : Nat) : String :=
  "expected_case" ++ toString idx ++ ".json"

/-- `input_data = {"uniform": uniform_input}`. -/
def inputFixture (c : CaseRec) : Json :=
  .obj [("uniform", c.uniform_input)]

/-- `expected_data = {"expected_output": ..., "tolerance": ..., "name": ...,
"notes": ...}`. -/
def expectedFixture (c : CaseRec) : Json :=
  .obj [("expected_output", c.expected_output), ("tolerance", c.tolerance),
        ("name", c.name), ("notes", c.notes)]

/-- The entry `summary.append({...})` builds for case `idx`. -/
def summaryEntry (idx : Nat) (c : CaseRec) : Json :=
  .obj [("case", .num (toString idx)), ("name", c.name),
        ("input", c.uniform_input), ("expected", c.expected_output),
        ("tolerance", c.tolerance),
        ("input_file", .str (inputFileName idx)),
        ("expected_file", .str (expectedFileName idx))]

/-- The `for idx, test_case in enumerate(test_cases, start=1)` loop: returns
the file writes performed (in order), the accumulated summary entries, and
the error that aborted the loop, if any.  On a `KeyError` inside iteration
`i`, the files already written by iterations `1..i-1` remain in the returned
trace, exactly as on disk. -/
def emitCases : List Json → Nat → List (String × Json) × List Json × Option GenError
  | [], _ => ([], [], none)
  | tc :: rest, idx =>
    match extractCase tc with
    | .error e => ([], [], some e)
    | .ok c =>
      let tail := emitCases rest (idx + 1)
      ((inputFileName idx, inputFixture c) :: (expectedFileName idx, expectedFixture c) :: tail.1,
       summaryEntry idx c :: tail.2.1,
       tail.2.2)

/-- The summary document written to `test_summary.json`. -/
def summaryDoc (doc : Json) (total : Nat) (entries : List Json) : Json :=
  .obj [("description", .str "Summary of all CIRCOM test cases"),
        ("total_cases", .num (toString total)),
        ("bulk_validation", dictGetD doc "bulk_validation" (.obj [])),
        ("test_cases", .arr entries)]

/-- The state of the source file `test_vectors.json`: `none` when the file
does not exist (`FileNotFoundError`), `some none` when it exists but is not
valid JSON (`json.JSONDecodeError`), `some (some doc)` when it parses to
`doc`. -/
def SourceState := Option (Option Json)

/-- What one run of the script does: whether the output directory was
ensured to exist (`test_dir.mkdir(exist_ok=True)` — performed before the
source file is opened), the fixture file writes it performed in order, and
the fatal error that aborted it, if any. -/
structure RunTrace where
  dirEnsured : Bool
  writes : List (String × Json)
  error : Option GenError

/-- Shallow embedding of `generate_test_inputs()`.  The directory creation
precedes the `open(test_vectors_file)`; a missing or unparseable source
aborts before any write; otherwise the per-case loop runs and, when it
completes without error, `test_summary.json` is written last. -/
def generate_test_inputs (source : SourceState) : RunTrace :=
  match source with
  | none => ⟨true, [], some .missingSourceFile⟩
  | some none => ⟨true, [], some .jsonDecodeError⟩
  | some (some doc) =>
    match dictGet doc "test_cases" with
    | .error e => ⟨true, [], some e⟩
    | .ok tcv =>
      match tcv with
      | .arr cases =>
        let r := emitCases cases 1
        match r.2.2 with
        | some e => ⟨true, r.1, some e⟩
        | none =>
          ⟨true, r.1 ++ [("test_summary.json", summaryDoc doc cases.length r.2.1)], none⟩
      | _ => ⟨true, [], some .typeError⟩

/-- The `test_cases` array of a document (empty for the error paths; only
used under hypotheses that force the array path). -/
def casesOf (doc : Json) : List Json :=
  match dictGet doc "test_cases" with
  | .ok (.arr cases) => cases
  | _ => []

/-- A document the run accepts: a dict with a `test_cases` array all of whose
entries carry the five required fields. -/
def validDoc (doc : Json) : Bool :=
  match dictGet doc "test_cases" with
  | .ok (.arr cases) => cases.all caseOk
  | _ => false

/-! ### Serialization, modelling `json.dump(data, f, indent=2)` -/

/-- One JSON string-escape step (the ASCII escapes of Python's encoder; the
repository's data is plain ASCII, so `\uXXXX` escaping of non-ASCII is not
modelled). -/
def escapeChar (c : Char) : String :=
  if c = '"' then "\\\""
  else if c = '\\' then "\\\\"
  else if c = '\n' then "\\n"
  else if c = '\t' then "\\t"
  else if c = '\r' then "\\r"
  else String.singleton c

def escapeString (s : String) : String :=
  String.join (s.toList.map escapeChar)

/-- `indent=2`: two spaces per nesting level. -/
def indentStr (lvl : Nat) : String :=
  String.join (List.replicate lvl "  ")

mutual

/-- Rendering of a JSON value at nesting level `lvl`, as `json.dump` with
`indent=2` produces it: keys in insertion order, `": "` after each key, a
comma and newline between items. -/
def render : Json → Nat → String
  | .null, _ => "null"
  | .bool true, _ => "true"
  | .bool false, _ => "false"
  | .num tok, _ => tok
  | .str s, _ => "\"" ++ escapeString s ++ "\""
  | .arr [], _ => "[]"
  | .arr (x :: xs), lvl =>
    "[\n" ++ indentStr (lvl + 1) ++ render x (lvl + 1) ++
      renderArrTail xs (lvl + 1) ++ "\n" ++ indentStr lvl ++ "]"
  | .obj [], _ => "\x7b\x7d"
  | .obj ((k, v) :: kvs), lvl =>
    "\x7b\n" ++ indentStr (lvl + 1) ++ "\"" ++ escapeString k ++ "\": " ++
      render v (lvl + 1) ++ renderObjTail kvs (lvl + 1) ++ "\n" ++ indentStr lvl ++ "\x7d"

def renderArrTail : List Json → Nat → String
  | [], _ => ""
  | x :: xs, lvl => ",\n" ++ indentStr lvl ++ render x lvl ++ renderArrTail xs lvl

def renderObjTail : List (String × Json) → Nat → String
  | [], _ => ""
  | (k, v) :: kvs, lvl =>
    ",\n" ++ indentStr lvl ++ "\"" ++ escapeString k ++ "\": " ++ render v lvl ++
      renderObjTail kvs lvl

end

/-- The bytes `json.dump(data, f, indent=2)` writes for a top-level value. -/
def renderTop (j : Json) : String := render j 0

/-! ### The output directory as state -/

/-- Contents of the output directory `test`, as a map from file name to file
bytes. -/
def FSFiles := String → Option String

/-- `open(file, 'w')` followed by `json.dump`: create or truncate, then write. -/
def writeFile (fs : FSFiles) (name : String) (content : String) : FSFiles :=
  fun n => if n = name then some content else fs n

/-- Perform a list of writes in order (later writes overwrite earlier ones of
the same name). -/
def applyWrites (fs : FSFiles) : List (String × Json) → FSFiles
  | [] => fs
  | (n, j) :: ws => applyWrites (writeFile fs n (renderTop j)) ws

/-- The filesystem state the script touches: whether the output directory
exists, and its files. -/
structure FSState where
  testDirExists : Bool
  files : FSFiles

/-- Effect of one invocation of the script on the output directory:
`test_dir.mkdir(exist_ok=True)` ensures the directory exists (this happens
before the source file is opened), then the run's writes are applied in
order. -/
def runOnState (s : FSState) (source : SourceState) : FSState :=
  { testDirExists := true,
    files := applyWrites s.files (generate_test_inputs source).writes }

/-- The last write to a given file name in a write list. -/
def lastWrite : List (String × Json) → String → Option Json
  | [], _ => none
  | (n, j) :: ws, x =>
    match lastWrite ws x with
    | some j' => some j'
    | none => if x = n then some j else none

/-- The value of field `key` in the written `test_summary.json`, when the
run's final write is that summary file. -/
def summaryField (t : RunTrace) (key : String) : Option Json :=
  match t.writes.getLast? with
  | some (n, .obj kvs) => if n = "test_summary.json" then lookupDict kvs key else none
  | _ => none

/-! ### Concrete documents used as evaluation witnesses -/

/-- The worked example case from the repository docs. -/
def sampleCase1 : Json :=
  .obj [("name", .str "zero"), ("uniform_input", .num "0"),
        ("expected_output", .num "0.5"), ("tolerance", .num "0.01"),
        ("notes", .str "midpoint")]

def sampleCase2 : Json :=
  .obj [("name", .str "alpha"), ("uniform_input", .num "0.25"),
        ("expected_output", .num "1.5"), ("tolerance", .num "0.02"),
        ("notes", .str "")]

/-- A valid two-case document without `bulk_validation`. -/
def sampleDoc : Json := .obj [("test_cases", .arr [sampleCase1, sampleCase2])]

/-- A valid one-case document with a `bulk_validation` block, agreeing with
`sampleDoc` on the record at position 1. -/
def sampleDocB : Json :=
  .obj [("test_cases", .arr [sampleCase1]),
        ("bulk_validation", .obj [("max_error", .num "0.1")])]

/-- A record lacking the required `tolerance` field. -/
def missingTolCase : Json :=
  .obj [("name", .str "broken"), ("uniform_input", .num "1"),
        ("expected_output", .num "2"), ("notes", .str "")]

/-- A document whose second case is defective. -/
def defectiveDoc : Json := .obj [("test_cases", .arr [sampleCase1, missingTolCase])]

/-- A document with an empty `test_cases` array. -/
def emptyCasesDoc : Json := .obj [("test_cases", .arr [])]

/-- An output directory that does not yet exist and holds no files. -/
def emptyFS : FSState := ⟨false, fun _ => none⟩

/-! ### Helper lemmas -/

theorem extractCase_of_caseOk {tc : Json} (h : caseOk tc = true) :
    extractCase tc = .ok (extractRec tc) := by
  unfold caseOk extractRec at *
  cases hx : extractCase tc <;> simp_all

theorem emitCases_cons_ok {tc : Json} {c : CaseRec} (rest : List Json) (idx : Nat)
    (h : extractCase tc = .ok c) :
    emitCases (tc :: rest) idx =
      ((inputFileName idx, inputFixture c) ::
         (expectedFileName idx, expectedFixture c) :: (emitCases rest (idx + 1)).1,
       summaryEntry idx c :: (emitCases rest (idx + 1)).2.1,
       (emitCases rest (idx + 1)).2.2) := by
  simp [emitCases, h]

theorem emitCases_error_eq_none {cases : List Json} (h : cases.all caseOk = true)
    (idx : Nat) : (emitCases cases idx).2.2 = none := by
  induction cases generalizing idx with
  | nil => rfl
  | cons tc rest ih =>
    rw [List.all_cons, Bool.and_eq_true] at h
    rw [emitCases_cons_ok rest idx (extractCase_of_caseOk h.1)]
    exact ih h.2 (idx + 1)

theorem emitCases_writes_map_fst {cases : List Json} (h : cases.all caseOk = true)
    (idx : Nat) :
    (emitCases cases idx).1.map Prod.fst =
      (List.range' idx cases.length).flatMap
        (fun i => [inputFileName i, expectedFileName i]) := by
  induction cases generalizing idx with
  | nil => rfl
  | cons tc rest ih =>
    rw [List.all_cons, Bool.and_eq_true] at h
    rw [emitCases_cons_ok rest idx (extractCase_of_caseOk h.1)]
    simp [List.range'_succ, ih h.2 (idx + 1)]

theorem emitCases_writes_length {cases : List Json} (h : cases.all caseOk = true)
    (idx : Nat) : (emitCases cases idx).1.length = 2 * cases.length := by
  induction cases generalizing idx with
  | nil => rfl
  | cons tc rest ih =>
    rw [List.all_cons, Bool.and_eq_true] at h
    rw [emitCases_cons_ok rest idx (extractCase_of_caseOk h.1)]
    simp only [List.length_cons, ih h.2 (idx + 1)]
    omega

theorem emitCases_writes_getElem {cases : List Json} (h : cases.all caseOk = true) :
    ∀ (idx i : Nat), i < cases.length →
      (emitCases cases idx).1[2 * i]? =
        some (inputFileName (idx + i), inputFixture (extractRec (cases.getD i .null))) ∧
      (emitCases cases idx).1[2 * i + 1]? =
        some (expectedFileName (idx + i), expectedFixture (extractRec (cases.getD i .null))) := by
  induction cases with
  | nil => intro idx i hi; cases hi
  | cons tc rest ih =>
    rw [List.all_cons, Bool.and_eq_true] at h
    intro idx i hi
    rw [emitCases_cons_ok rest idx (extractCase_of_caseOk h.1)]
    cases i with
    | zero => simp
    | succ i =>
      have hi' : i < rest.length := by simpa using hi
      have hidx : idx + (i + 1) = (idx + 1) + i := by omega
      have h2 : 2 * (i + 1) = 2 * i + 1 + 1 := by omega
      rw [hidx, h2]
      simpa [List.getElem?_cons_succ] using ih h.2 (idx + 1) i hi'

theorem emitCases_entries_eq {cases : List Json} (h : cases.all caseOk = true)
    (idx : Nat) :
    (emitCases cases idx).2.1 =
      List.zipWith summaryEntry (List.range' idx cases.length) (cases.map extractRec) := by
  induction cases generalizing idx with
  | nil => rfl
  | cons tc rest ih =>
    rw [List.all_cons, Bool.and_eq_true] at h
    rw [emitCases_cons_ok rest idx (extractCase_of_caseOk h.1)]
    have hval : extractRec tc = extractRec tc := rfl
    simp [List.range'_succ, ih h.2 (idx + 1)]

theorem emitCases_append_error {pre rest : List Json} {bad : Json} {e : GenError}
    (hpre : pre.all caseOk = true) (hbad : extractCase bad = .error e) (idx : Nat) :
    (emitCases (pre ++ bad :: rest) idx).1 = (emitCases pre idx).1 ∧
    (emitCases (pre ++ bad :: rest) idx).2.2 = some e := by
  induction pre generalizing idx with
  | nil => simp [emitCases, hbad]
  | cons tc p ih =>
    rw [List.all_cons, Bool.and_eq_true] at hpre
    have hc := extractCase_of_caseOk hpre.1
    rw [List.cons_append, emitCases_cons_ok (p ++ bad :: rest) idx hc,
      emitCases_cons_ok p idx hc]
    have h' := ih hpre.2 (idx + 1)
    exact ⟨by simp [h'.1], h'.2⟩

/-- The run on a valid document: no error, and the writes are the 2k per-case
fixture writes followed by the summary write. -/
theorem generate_test_inputs_valid {doc : Json} (hv : validDoc doc = true) :
    generate_test_inputs (some (some doc)) =
      ⟨true,
       (emitCases (casesOf doc) 1).1 ++
         [("test_summary.json",
           summaryDoc doc (casesOf doc).length (emitCases (casesOf doc) 1).2.1)],
       none⟩ := by
  unfold validDoc at hv
  cases htc : dictGet doc "test_cases" with
  | error e => rw [htc] at hv; cases hv
  | ok tcv =>
    rw [htc] at hv
    cases tcv with
    | arr cases =>
      have hv' : cases.all caseOk = true := hv
      simp [generate_test_inputs, casesOf, htc, emitCases_error_eq_none hv' 1]
    | null => cases hv
    | bool b => cases hv
    | num t => cases hv
    | str s => cases hv
    | obj kvs => cases hv

theorem applyWrites_apply (ws : List (String × Json)) (fs : FSFiles) (x : String) :
    applyWrites fs ws x =
      match lastWrite ws x with
      | some j => some (renderTop j)
      | none => fs x := by
  induction ws generalizing fs with
  | nil => rfl
  | cons w ws ih =>
    obtain ⟨n, j⟩ := w
    rw [applyWrites, ih]
    cases hlw : lastWrite ws x with
    | some j' => simp [lastWrite, hlw]
    | none =>
      simp only [lastWrite, hlw, writeFile]
      by_cases hx : x = n <;> simp [hx]

/-- Writing the same contents again changes nothing: the writes of a second
identical run land on top of the first run's files byte-for-byte. -/
theorem applyWrites_idem (ws : List (String × Json)) (fs : FSFiles) :
    applyWrites (applyWrites fs ws) ws = applyWrites fs ws := by
  funext x
  rw [applyWrites_apply, applyWrites_apply]
  cases hlw : lastWrite ws x with
  | some j => simp [hlw]
  | none => simp [hlw, applyWrites_apply ws fs x]

/-- A successfully extracted record is exactly the five field lookups of the
source record. -/
theorem extractCase_fields {tc : Json} {c : CaseRec} (h : extractCase tc = .ok c) :
    dictGet tc "name" = .ok c.name ∧
    dictGet tc "uniform_input" = .ok c.uniform_input ∧
    dictGet tc "expected_output" = .ok c.expected_output ∧
    dictGet tc "tolerance" = .ok c.tolerance ∧
    dictGet tc "notes" = .ok c.notes := by
  unfold extractCase at h
  cases h1 : dictGet tc "name" with
  | error e => rw [h1] at h; cases h
  | ok name =>
    rw [h1] at h
    cases h2 : dictGet tc "uniform_input" with
    | error e => rw [h2] at h; cases h
    | ok ui =>
      rw [h2] at h
      cases h3 : dictGet tc "expected_output" with
      | error e => rw [h3] at h; cases h
      | ok eo =>
        rw [h3] at h
        cases h4 : dictGet tc "tolerance" with
        | error e => rw [h4] at h; cases h
        | ok tol =>
          rw [h4] at h
          cases h5 : dictGet tc "notes" with
          | error e => rw [h5] at h; cases h
          | ok notes =>
            rw [h5] at h
            cases h
            exact ⟨rfl, rfl, rfl, rfl, rfl⟩

theorem lookupDict_append_right {kvs kvs' : List (String × Json)} {key : String} {v : Json}
    (h : lookupDict kvs' key = some v) :
    lookupDict (kvs ++ kvs') key = some v := by
  induction kvs with
  | nil => simpa
  | cons kv rest ih => simp [lookupDict, ih]

theorem casesOk_of_validDoc {doc : Json} (hv : validDoc doc = true) :
    (casesOf doc).all caseOk = true := by
  unfold validDoc at hv
  unfold casesOf
  cases htc : dictGet doc "test_cases" with
  | error e => rw [htc] at hv; cases hv
  | ok tcv =>
    rw [htc] at hv
    cases tcv with
    | arr cases => exact hv
    | null => cases hv
    | bool b => cases hv
    | num t => cases hv
    | str s => cases hv
    | obj kvs => cases hv

/-- On a valid document, the write at position `2i` (resp. `2i+1`) of the run
is the input (resp. expected-output) fixture of the `i`-th case (0-based),
named with the 1-based case number `i + 1`. -/
theorem writes_getElem_valid {doc : Json} (hv : validDoc doc = true) {i : Nat}
    (hi : i < (casesOf doc).length) :
    (generate_test_inputs (some (some doc))).writes[2 * i]? =
      some (inputFileName (i + 1),
            inputFixture (extractRec ((casesOf doc).getD i .null))) ∧
    (generate_test_inputs (some (some doc))).writes[2 * i + 1]? =
      some (expectedFileName (i + 1),
            expectedFixture (extractRec ((casesOf doc).getD i .null))) := by
  have hall := casesOk_of_validDoc hv
  rw [generate_test_inputs_valid hv]
  have hlen := emitCases_writes_length hall 1
  have hget := emitCases_writes_getElem hall 1 i hi
  have h1 : 2 * i < (emitCases (casesOf doc) 1).1.length := by omega
  have h2 : 2 * i + 1 < (emitCases (casesOf doc) 1).1.length := by omega
  constructor
  · rw [show (⟨true, (emitCases (casesOf doc) 1).1 ++ [("test_summary.json",
        summaryDoc doc (casesOf doc).length (emitCases (casesOf doc) 1).2.1)],
        none⟩ : RunTrace).writes = (emitCases (casesOf doc) 1).1 ++ _ from rfl,
      List.getElem?_append_left h1]
    simpa [Nat.add_comm 1 i] using hget.1
  · rw [show (⟨true, (emitCases (casesOf doc) 1).1 ++ [("test_summary.json",
        summaryDoc doc (casesOf doc).length (emitCases (casesOf doc) 1).2.1)],
        none⟩ : RunTrace).writes = (emitCases (casesOf doc) 1).1 ++ _ from rfl,
      List.getElem?_append_left h2]
    simpa [Nat.add_comm 1 i] using hget.2

/-- `d.get(key, dflt)` returns the stored value when `d[key]` succeeds. -/
theorem dictGetD_of_ok {doc v dflt : Json} {key : String}
    (h : dictGet doc key = .ok v) : dictGetD doc key dflt = v := by
  cases doc <;> try cases h
  case obj kvs =>
    simp only [dictGet] at h
    simp only [dictGetD]
    cases hlk : lookupDict kvs key <;> simp_all

/-- `d.get(key, dflt)` returns the default when `d[key]` raises `KeyError`. -/
theorem dictGetD_of_keyError {doc dflt : Json} {key : String}
    (h : dictGet doc key = .error (.keyError key)) : dictGetD doc key dflt = dflt := by
  cases doc <;> try rfl
  case obj kvs =>
    simp only [dictGet] at h
    simp only [dictGetD]
    cases hlk : lookupDict kvs key <;> simp_all

/-! ### The claims -/

/-- Claim C2: for every valid source document with `k` test cases, the run
succeeds and writes exactly `2k+1` fixture files, named
`input_case1..k.json`, `expected_case1..k.json` (pairwise, in case order)
and finally `test_summary.json`. -/
theorem C2_fixture_file_count (doc : Json) (hv : validDoc doc = true) :
    (generate_test_inputs (some (some doc))).error = none ∧
    (generate_test_inputs (some (some doc))).writes.map Prod.fst =
      (List.range' 1 (casesOf doc).length).flatMap
        (fun i => [inputFileName i, expectedFileName i]) ++ ["test_summary.json"] ∧
    (generate_test_inputs (some (some doc))).writes.length =
      2 * (casesOf doc).length + 1 := by
  have hall := casesOk_of_validDoc hv
  rw [generate_test_inputs_valid hv]
  refine ⟨rfl, ?_, ?_⟩
  · simp [emitCases_writes_map_fst hall 1]
  · simp [emitCases_writes_length hall 1]

/-- Claim C2 witness: the two-case sample document yields exactly five writes
with the stated names. -/
theorem C2_fixture_file_count_witness :
    validDoc sampleDoc = true ∧
    ((generate_test_inputs (some (some sampleDoc))).error = none ∧
     (generate_test_inputs (some (some sampleDoc))).writes.map Prod.fst =
       (List.range' 1 (casesOf sampleDoc).length).flatMap
         (fun i => [inputFileName i, expectedFileName i]) ++ ["test_summary.json"] ∧
     (generate_test_inputs (some (some sampleDoc))).writes.length =
       2 * (casesOf sampleDoc).length + 1) :=
  ⟨rfl, C2_fixture_file_count sampleDoc rfl⟩

/-- Claim C3: for every valid source document and every case (here `i` is the
0-based position, so the case number is `i + 1`), the write producing
`input_case{i+1}.json` is exactly the one-key object
`{"uniform": uniform_input}` with the untransformed `uniform_input` value of
the `i`-th source record. -/
theorem C3_input_fixture_roundtrip (doc : Json) (i : Nat) (v : Json)
    (hv : validDoc doc = true) (hi : i < (casesOf doc).length)
    (hval : dictGet ((casesOf doc).getD i .null) "uniform_input" = .ok v) :
    (generate_test_inputs (some (some doc))).writes[2 * i]? =
      some (inputFileName (i + 1), Json.obj [("uniform", v)]) := by
  have hall := casesOk_of_validDoc hv
  have hmem : (casesOf doc).getD i .null ∈ casesOf doc := by
    rw [List.getD_eq_getElem _ _ hi]
    exact List.getElem_mem hi
  have hok : caseOk ((casesOf doc).getD i .null) = true :=
    (List.all_eq_true.mp hall) _ hmem
  have hex := extractCase_of_caseOk hok
  have hfields := extractCase_fields hex
  have hv' : v = (extractRec ((casesOf doc).getD i .null)).uniform_input := by
    have := hfields.2.1
    rw [hval] at this
    cases this
    rfl
  rw [(writes_getElem_valid hv hi).1, hv']
  rfl

/-- Claim C3 witness: in the sample document, case 2 (0-based position 1)
has `uniform_input` `0.25` and its input fixture is exactly
`{"uniform": 0.25}`. -/
theorem C3_input_fixture_roundtrip_witness :
    validDoc sampleDoc = true ∧ 1 < (casesOf sampleDoc).length ∧
    dictGet ((casesOf sampleDoc).getD 1 .null) "uniform_input" = .ok (.num "0.25") ∧
    (generate_test_inputs (some (some sampleDoc))).writes[2 * 1]? =
      some (inputFileName (1 + 1), Json.obj [("uniform", .num "0.25")]) :=
  ⟨rfl, by decide, rfl,
    C3_input_fixture_roundtrip sampleDoc 1 (.num "0.25") rfl (by decide) rfl⟩

/-- Claim C4: case numbers are the 1-based positions in the source sequence:
the fixture pair of the record at 0-based position `i` is written to
`input_case{i+1}.json` and `expected_case{i+1}.json`, whatever the `name`
fields are (the file names are computed from the position alone). -/
theorem C4_case_numbering (doc : Json) (i : Nat)
    (hv : validDoc doc = true) (hi : i < (casesOf doc).length) :
    ((generate_test_inputs (some (some doc))).writes[2 * i]?).map Prod.fst =
      some (inputFileName (i + 1)) ∧
    ((generate_test_inputs (some (some doc))).writes[2 * i + 1]?).map Prod.fst =
      some (expectedFileName (i + 1)) := by
  have h := writes_getElem_valid hv hi
  rw [h.1, h.2]
  exact ⟨rfl, rfl⟩

/-- Claim C4 witness: in the sample document the second record, named
"alpha" (lexically before "zero", the name of the first), still gets the
pair `input_case2.json` / `expected_case2.json`. -/
theorem C4_case_numbering_witness :
    validDoc sampleDoc = true ∧ 1 < (casesOf sampleDoc).length ∧
    (((generate_test_inputs (some (some sampleDoc))).writes[2 * 1]?).map Prod.fst =
       some (inputFileName (1 + 1)) ∧
     ((generate_test_inputs (some (some sampleDoc))).writes[2 * 1 + 1]?).map Prod.fst =
       some (expectedFileName (1 + 1))) :=
  ⟨rfl, by decide, C4_case_numbering sampleDoc 1 rfl (by decide)⟩

/-- Claim C5: on every valid source document the final write is
`test_summary.json`, whose `total_cases` field is the length of the source
`test_cases` array and whose `test_cases` field is the ordered list of
per-case entries — `summaryEntry (i+1)` of the `i`-th record, i.e. case
number, name, input, expected, tolerance and the two fixture file names. -/
theorem C5_summary_contents (doc : Json) (hv : validDoc doc = true) :
    (generate_test_inputs (some (some doc))).writes.getLast? =
      some ("test_summary.json",
        Json.obj [("description", .str "Summary of all CIRCOM test cases"),
                  ("total_cases", .num (toString (casesOf doc).length)),
                  ("bulk_validation", dictGetD doc "bulk_validation" (.obj [])),
                  ("test_cases", .arr (List.zipWith summaryEntry
                     (List.range' 1 (casesOf doc).length)
                     ((casesOf doc).map extractRec)))]) := by
  rw [generate_test_inputs_valid hv]
  have hall := casesOk_of_validDoc hv
  simp [summaryDoc, dictGetD, emitCases_entries_eq hall 1]

/-- Claim C5 witness: the sample document's summary has `total_cases` 2 and
the two ordered entries. -/
theorem C5_summary_contents_witness :
    validDoc sampleDoc = true ∧
    (generate_test_inputs (some (some sampleDoc))).writes.getLast? =
      some ("test_summary.json",
        Json.obj [("description", .str "Summary of all CIRCOM test cases"),
                  ("total_cases", .num (toString (casesOf sampleDoc).length)),
                  ("bulk_validation", dictGetD sampleDoc "bulk_validation" (.obj [])),
                  ("test_cases", .arr (List.zipWith summaryEntry
                     (List.range' 1 (casesOf sampleDoc).length)
                     ((casesOf sampleDoc).map extractRec)))]) :=
  ⟨rfl, C5_summary_contents sampleDoc rfl⟩

/-- Claim C6: the run is a pure function of the source document, so invoking
the tool a second time against the unchanged document overwrites every
fixture file with byte-identical content: the output directory state after
two runs equals the state after one. -/
theorem C6_idempotent (doc : Json) (s : FSState) (_hv : validDoc doc = true) :
    runOnState (runOnState s (some (some doc))) (some (some doc)) =
      runOnState s (some (some doc)) := by
  unfold runOnState
  exact congrArg (FSState.mk true) (applyWrites_idem _ _)

/-- Claim C6 witness: a second run on the sample document leaves the
directory state of the first run unchanged. -/
theorem C6_idempotent_witness :
    validDoc sampleDoc = true ∧
    runOnState (runOnState emptyFS (some (some sampleDoc))) (some (some sampleDoc)) =
      runOnState emptyFS (some (some sampleDoc)) :=
  ⟨rfl, C6_idempotent sampleDoc emptyFS rfl⟩

/-- Claim C7: the `bulk_validation` field of the written summary is the
source document's `bulk_validation` mapping when that key is present, and
the empty mapping when it is absent. -/
theorem C7_bulk_validation_passthrough (doc : Json) (hv : validDoc doc = true) :
    (∀ v : Json, dictGet doc "bulk_validation" = .ok v →
       summaryField (generate_test_inputs (some (some doc))) "bulk_validation" =
         some v) ∧
    (dictGet doc "bulk_validation" = .error (.keyError "bulk_validation") →
       summaryField (generate_test_inputs (some (some doc))) "bulk_validation" =
         some (Json.obj [])) := by
  have hsum : summaryField (generate_test_inputs (some (some doc))) "bulk_validation" =
      some (dictGetD doc "bulk_validation" (.obj [])) := by
    rw [generate_test_inputs_valid hv]
    simp [summaryField, summaryDoc, lookupDict]
  constructor
  · intro v hv'
    rw [hsum, dictGetD_of_ok hv']
  · intro habs
    rw [hsum, dictGetD_of_keyError habs]

/-- Claim C7 witness: `sampleDocB` carries a `bulk_validation` block and the
summary passes it through; `sampleDoc` lacks it and the summary holds the
empty mapping. -/
theorem C7_bulk_validation_passthrough_witness :
    validDoc sampleDocB = true ∧
    summaryField (generate_test_inputs (some (some sampleDocB))) "bulk_validation" =
      some (Json.obj [("max_error", .num "0.1")]) ∧
    validDoc sampleDoc = true ∧
    summaryField (generate_test_inputs (some (some sampleDoc))) "bulk_validation" =
      some (Json.obj []) :=
  ⟨rfl, (C7_bulk_validation_passthrough sampleDocB rfl).1 _ rfl,
   rfl, (C7_bulk_validation_passthrough sampleDoc rfl).2 rfl⟩

/-- Claim C9: a document whose `test_cases` is the empty array is accepted:
the run succeeds and its only write is `test_summary.json` with
`total_cases` 0 and an empty `test_cases` list; no `input_case` or
`expected_case` file is written. -/
theorem C9_empty_cases (doc : Json)
    (h : dictGet doc "test_cases" = .ok (Json.arr [])) :
    (generate_test_inputs (some (some doc))).error = none ∧
    (generate_test_inputs (some (some doc))).writes =
      [("test_summary.json",
        Json.obj [("description", .str "Summary of all CIRCOM test cases"),
                  ("total_cases", .num "0"),
                  ("bulk_validation", dictGetD doc "bulk_validation" (.obj [])),
                  ("test_cases", .arr [])])] := by
  have h0 : (toString (0 : Nat)) = "0" := rfl
  simp [generate_test_inputs, h, emitCases, summaryDoc, h0]

/-- Claim C9 witness: the empty-cases document produces exactly the summary
file. -/
theorem C9_empty_cases_witness :
    dictGet emptyCasesDoc "test_cases" = .ok (Json.arr []) ∧
    ((generate_test_inputs (some (some emptyCasesDoc))).error = none ∧
     (generate_test_inputs (some (some emptyCasesDoc))).writes =
       [("test_summary.json",
         Json.obj [("description", .str "Summary of all CIRCOM test cases"),
                   ("total_cases", .num "0"),
                   ("bulk_validation", dictGetD emptyCasesDoc "bulk_validation" (.obj [])),
                   ("test_cases", .arr [])])]) :=
  ⟨rfl, C9_empty_cases emptyCasesDoc rfl⟩

/-- Claim C10: per-case noninterference — on two valid documents whose
records at 0-based position `i` extract to the same five fields, the writes
producing `input_case{i+1}.json` and `expected_case{i+1}.json` coincide,
including their rendered bytes, whatever the other cases, the case counts or
`bulk_validation` are. -/
theorem C10_case_noninterference (doc1 doc2 : Json) (i : Nat)
    (hv1 : validDoc doc1 = true) (hv2 : validDoc doc2 = true)
    (hi1 : i < (casesOf doc1).length) (hi2 : i < (casesOf doc2).length)
    (hrec : extractRec ((casesOf doc1).getD i .null) =
            extractRec ((casesOf doc2).getD i .null)) :
    (generate_test_inputs (some (some doc1))).writes[2 * i]? =
      (generate_test_inputs (some (some doc2))).writes[2 * i]? ∧
    (generate_test_inputs (some (some doc1))).writes[2 * i + 1]? =
      (generate_test_inputs (some (some doc2))).writes[2 * i + 1]? ∧
    ((generate_test_inputs (some (some doc1))).writes[2 * i]?).map
        (fun p => (p.1, renderTop p.2)) =
      ((generate_test_inputs (some (some doc2))).writes[2 * i]?).map
        (fun p => (p.1, renderTop p.2)) ∧
    ((generate_test_inputs (some (some doc1))).writes[2 * i + 1]?).map
        (fun p => (p.1, renderTop p.2)) =
      ((generate_test_inputs (some (some doc2))).writes[2 * i + 1]?).map
        (fun p => (p.1, renderTop p.2)) := by
  have h1 := writes_getElem_valid hv1 hi1
  have h2 := writes_getElem_valid hv2 hi2
  have e1 : (generate_test_inputs (some (some doc1))).writes[2 * i]? =
      (generate_test_inputs (some (some doc2))).writes[2 * i]? := by
    rw [h1.1, h2.1, hrec]
  have e2 : (generate_test_inputs (some (some doc1))).writes[2 * i + 1]? =
      (generate_test_inputs (some (some doc2))).writes[2 * i + 1]? := by
    rw [h1.2, h2.2, hrec]
  exact ⟨e1, e2, by rw [e1], by rw [e2]⟩

/-- Claim C10 witness: `sampleDoc` (two cases, no `bulk_validation`) and
`sampleDocB` (one case, with `bulk_validation`) share the record at position
0 and get identical case-1 fixture writes. -/
theorem C10_case_noninterference_witness :
    validDoc sampleDoc = true ∧ validDoc sampleDocB = true ∧
    0 < (casesOf sampleDoc).length ∧ 0 < (casesOf sampleDocB).length ∧
    extractRec ((casesOf sampleDoc).getD 0 .null) =
      extractRec ((casesOf sampleDocB).getD 0 .null) ∧
    (generate_test_inputs (some (some sampleDoc))).writes[2 * 0]? =
      (generate_test_inputs (some (some sampleDocB))).writes[2 * 0]? :=
  ⟨rfl, rfl, by decide, by decide, rfl,
   (C10_case_noninterference sampleDoc sampleDocB 0 rfl rfl (by decide) (by decide)
     rfl).1⟩

/-- Claim C1 (counterexample): in `defectiveDoc` the record at 1-based index
2 lacks `tolerance`.  The run does abort, but with a `KeyError` naming the
missing *field* (not the case index), and only after the two fixture files
of case 1 have already been written — so "zero new fixture files are written
in that run" fails at this input. -/
theorem C1_counterexample :
    (generate_test_inputs (some (some defectiveDoc))).error =
      some (.keyError "tolerance") ∧
    (generate_test_inputs (some (some defectiveDoc))).writes.map Prod.fst =
      [inputFileName 1, expectedFileName 1] ∧
    (generate_test_inputs (some (some defectiveDoc))).writes ≠ [] :=
  ⟨rfl, rfl, fun h => List.noConfusion h⟩

/-- Claim C1 (amended): if the record at 1-based index `p+1` is the first one
missing a required field, the run aborts with a `KeyError` naming that field
(the case index is not part of the condition), after writing exactly the
`2p` fixture files of the earlier cases and before writing anything for the
defective or later cases, and without writing the summary. -/
theorem C1_missing_field_aborts (doc : Json) (pre rest : List Json)
    (bad : Json) (f : String)
    (hdoc : dictGet doc "test_cases" = .ok (.arr (pre ++ bad :: rest)))
    (hpre : pre.all caseOk = true)
    (hbad : extractCase bad = .error (.keyError f)) :
    (generate_test_inputs (some (some doc))).error = some (.keyError f) ∧
    (generate_test_inputs (some (some doc))).writes.map Prod.fst =
      (List.range' 1 pre.length).flatMap
        (fun i => [inputFileName i, expectedFileName i]) ∧
    (generate_test_inputs (some (some doc))).writes.length = 2 * pre.length := by
  have h := @emitCases_append_error pre rest bad (.keyError f) hpre hbad 1
  simp [generate_test_inputs, hdoc, h.1, h.2,
    emitCases_writes_map_fst hpre 1, emitCases_writes_length hpre 1]

/-- Claim C1 (amended) witness: on `defectiveDoc` (defect at index 2) the
abort carries `KeyError "tolerance"` and exactly the two case-1 files were
written. -/
theorem C1_missing_field_aborts_witness :
    dictGet defectiveDoc "test_cases" =
      .ok (.arr ([sampleCase1] ++ missingTolCase :: [])) ∧
    ([sampleCase1] : List Json).all caseOk = true ∧
    extractCase missingTolCase = .error (.keyError "tolerance") ∧
    ((generate_test_inputs (some (some defectiveDoc))).error =
       some (.keyError "tolerance") ∧
     (generate_test_inputs (some (some defectiveDoc))).writes.map Prod.fst =
       (List.range' 1 ([sampleCase1] : List Json).length).flatMap
         (fun i => [inputFileName i, expectedFileName i]) ∧
     (generate_test_inputs (some (some defectiveDoc))).writes.length =
       2 * ([sampleCase1] : List Json).length) :=
  ⟨rfl, rfl, rfl,
   C1_missing_field_aborts defectiveDoc [sampleCase1] [] missingTolCase
     "tolerance" rfl rfl rfl⟩

/-- Claim C8 (counterexample): with the source file absent and the output
directory not yet existing, the run does fail with the missing-source
condition and writes nothing, but `test_dir.mkdir(exist_ok=True)` runs
before the source file is opened, so the previously-absent output directory
exists after the run — the output location is *not* left as it was. -/
theorem C8_counterexample :
    (generate_test_inputs none).error = some .missingSourceFile ∧
    (generate_test_inputs none).writes = [] ∧
    emptyFS.testDirExists = false ∧
    (runOnState emptyFS none).testDirExists = true :=
  ⟨rfl, rfl, rfl, rfl⟩

/-- Claim C8 (amended): an absent source file aborts the run with the
missing-source condition; no fixture file is written and the files of the
output directory are untouched, but the output directory itself is created
(if absent) before the failure, because the directory creation precedes the
open of the source file. -/
theorem C8_missing_source (s : FSState) :
    (generate_test_inputs none).error = some .missingSourceFile ∧
    (generate_test_inputs none).writes = [] ∧
    (runOnState s none).files = s.files ∧
    (runOnState s none).testDirExists = true :=
  ⟨rfl, rfl, rfl, rfl⟩

end TruthForge
